import Mathlib

/-!
# Orderable DB instance resolver and Lex slot-type status poll

A shallow embedding of

* `dataSourceAwsRdsOrderableDbInstanceRead`
  (`aws/data_source_aws_rds_orderable_db_instance.go`), and
* `LexSlotTypeStatus` (`aws/internal/service/lex/waiter/status.go`),

followed by theorems about them.

Go pointers (`*string`, `*bool`, ...) are `Option` values, `nil` being `none`.
The function under study mutates the resource data `d` in place and returns an
`error`; here it returns the resource data after the call together with the
outcome.  The vendor SDK and the plugin SDK are collaborators outside the
repository: the small parts of their behaviour the code relies on
(`GetOk`, `Set`, `SetId`, the paginator, `ErrCodeEquals`, `aws.StringValue`)
are modelled after their documented behaviour.
-/

namespace TerraformAws

/-! ## Go values shared by both functions -/

/-- A non-nil Go `error`.  `awsCode` is `some c` when the error is (or wraps) an
`awserr.Error` whose `Code()` is `c`; `text` is the message. -/
structure GoError where
  awsCode : Option String
  text : String
deriving DecidableEq, Repr

/-- The SDK helper `aws.StringValue`: the pointed-to string, or `""` for nil. -/
def StringValue (p : Option String) : String :=
  match p with
  | some s => s
  | none => ""

/-- A `float64`, kept as its bit pattern: the code only copies such values. -/
structure Float64 where
  bits : Nat
deriving DecidableEq, Repr

/-! ## Go maps with string keys -/

/-- Assignment `m[k] = v` on a Go map, kept as an association list with at most
one entry per key. -/
def mapSet {V : Type} (m : List (String × V)) (k : String) (v : V) : List (String × V) :=
  match m with
  | [] => [(k, v)]
  | e :: rest => if e.1 = k then (k, v) :: rest else e :: mapSet rest k v

/-- Look-up `m[k]` on a Go map; `none` when the key is absent. -/
def mapGet {V : Type} (m : List (String × V)) (k : String) : Option V :=
  match m with
  | [] => none
  | e :: rest => if e.1 = k then some e.2 else mapGet rest k

/-! ## RDS types (vendor SDK) -/

/-- The type `rds.AvailabilityZone`. -/
structure AvailabilityZone where
  Name : Option String
deriving DecidableEq, Repr

/-- The type `rds.OrderableDBInstanceOption`, with the fields the code reads.
The elements of `AvailabilityZones` are taken to be non-nil, as the SDK decoder
produces them. -/
structure OrderableDBInstanceOption where
  AvailabilityZoneGroup : Option String
  AvailabilityZones : List AvailabilityZone
  DBInstanceClass : Option String
  Engine : Option String
  EngineVersion : Option String
  LicenseModel : Option String
  MaxIopsPerDbInstance : Option Int
  MaxIopsPerGib : Option Float64
  MaxStorageSize : Option Int
  MinIopsPerDbInstance : Option Int
  MinIopsPerGib : Option Float64
  MinStorageSize : Option Int
  MultiAZCapable : Option Bool
  OutpostCapable : Option Bool
  ReadReplicaCapable : Option Bool
  StorageType : Option String
  SupportedEngineModes : List (Option String)
  SupportsEnhancedMonitoring : Option Bool
  SupportsGlobalDatabases : Option Bool
  SupportsIAMDatabaseAuthentication : Option Bool
  SupportsIops : Option Bool
  SupportsKerberosAuthentication : Option Bool
  SupportsPerformanceInsights : Option Bool
  SupportsStorageAutoscaling : Option Bool
  SupportsStorageEncryption : Option Bool
  Vpc : Option Bool
deriving DecidableEq, Repr

/-- The type `rds.DescribeOrderableDBInstanceOptionsInput`: the request. -/
structure DescribeOrderableDBInstanceOptionsInput where
  AvailabilityZoneGroup : Option String
  DBInstanceClass : Option String
  Engine : Option String
  EngineVersion : Option String
  Filters : List (String × List String)
  LicenseModel : Option String
  Marker : Option String
  MaxRecords : Option Int
  Vpc : Option Bool
deriving DecidableEq, Repr

/-- The zero value `&rds.DescribeOrderableDBInstanceOptionsInput{}`. -/
def emptyInput : DescribeOrderableDBInstanceOptionsInput :=
  { AvailabilityZoneGroup := none, DBInstanceClass := none, Engine := none,
    EngineVersion := none, Filters := [], LicenseModel := none, Marker := none,
    MaxRecords := none, Vpc := none }

/-- The type `rds.DescribeOrderableDBInstanceOptionsOutput`: one page.  A list
element may be a nil pointer. -/
structure DescribeOrderableDBInstanceOptionsOutput where
  Marker : Option String
  OrderableDBInstanceOptions : List (Option OrderableDBInstanceOption)
deriving DecidableEq, Repr

/-- What the remote service answers to one request: the pages it delivers, in
order, and the error (if any) that ends the retrieval after them. -/
structure PagesResult where
  pages : List DescribeOrderableDBInstanceOptionsOutput
  err : Option GoError
deriving DecidableEq, Repr

/-- The SDK paginator `DescribeOrderableDBInstanceOptionsPages`: it hands every
page to `fn` together with the flag "this is the last page", stops as soon as
`fn` answers `false`, and returns the error of the retrieval. -/
def pagesLoop {σ : Type}
    (fn : σ → DescribeOrderableDBInstanceOptionsOutput → Bool → σ × Bool)
    (err : Option GoError) :
    List DescribeOrderableDBInstanceOptionsOutput → σ → σ × Option GoError
  | [], s => (s, err)
  | p :: rest, s =>
    let lastPage := rest.isEmpty && err.isNone
    let r := fn s p lastPage
    if r.2 then pagesLoop fn err rest r.1 else (r.1, none)

/-- The method `conn.DescribeOrderableDBInstanceOptionsPages(input, fn)`. -/
def DescribeOrderableDBInstanceOptionsPages {σ : Type}
    (conn : DescribeOrderableDBInstanceOptionsInput → PagesResult)
    (input : DescribeOrderableDBInstanceOptionsInput)
    (fn : σ → DescribeOrderableDBInstanceOptionsOutput → Bool → σ × Bool) (s : σ) :
    σ × Option GoError :=
  pagesLoop fn (conn input).err (conn input).pages s

/-! ## Resource data (plugin SDK) -/

/-- The criteria of the data source as the configuration gives them: `none`
for an attribute that is not set.  `engine` is required by the schema.  An
element of `preferred_db_instance_classes` that is not a string is `none`. -/
structure Config where
  availability_zone_group : Option String
  db_instance_class : Option String
  engine : String
  engine_version : Option String
  license_model : Option String
  storage_type : Option String
  preferred_db_instance_classes : List (Option String)
  vpc : Option Bool
deriving DecidableEq, Repr

/-- A value handed to `d.Set`. -/
inductive AttrValue where
  | string (s : String)
  | stringPtr (s : Option String)
  | stringPtrList (l : List (Option String))
  | int64Ptr (i : Option Int)
  | float64Ptr (f : Option Float64)
  | boolPtr (b : Option Bool)
deriving DecidableEq, Repr

/-- The `*schema.ResourceData` the function works on: the configuration it
reads, and the identifier and attribute store it writes. -/
structure ResourceData where
  config : Config
  id : String
  attrs : List (String × AttrValue)
deriving DecidableEq, Repr

/-- The method `d.GetOk` on a string attribute: the value, and whether the
attribute has been set to a non-zero value. -/
def GetOkString (v : Option String) : String × Bool :=
  match v with
  | none => ("", false)
  | some s => (s, decide (s ≠ ""))

/-- The method `d.GetOk` on a boolean attribute: the value, and whether the
attribute has been set to a non-zero value. -/
def GetOkBool (v : Option Bool) : Bool × Bool :=
  match v with
  | none => (false, false)
  | some b => (b, b)

/-- The method `d.SetId`. -/
def ResourceData.SetId (d : ResourceData) (v : String) : ResourceData :=
  { d with id := v }

/-- The method `d.Set`: record `v` under the attribute name `key`. -/
def ResourceData.Set (d : ResourceData) (key : String) (v : AttrValue) : ResourceData :=
  { d with attrs := mapSet d.attrs key v }

/-- Read back an attribute written with `Set`. -/
def ResourceData.attr (d : ResourceData) (key : String) : Option AttrValue :=
  mapGet d.attrs key

/-! ## `dataSourceAwsRdsOrderableDbInstanceRead` -/

/-- The errors `dataSourceAwsRdsOrderableDbInstanceRead` returns. -/
inductive ReadError where
  | remote (cause : GoError)
  | noOptions
  | multiple (instanceClassResults : List String)
  | noClassMatch
deriving DecidableEq, Repr

/-- The verb `%v` of package `fmt` on a `[]string`. -/
def fmtStrings (l : List String) : String :=
  "[" ++ " ".intercalate l ++ "]"

/-- The text of each error, from the `fmt.Errorf` calls. -/
def ReadError.message : ReadError → String
  | .remote cause => "error reading RDS orderable DB instance options: " ++ cause.text
  | .noOptions => "no RDS Orderable DB Instance options found matching criteria; try different search"
  | .multiple l =>
    "multiple RDS DB Instance Classes (" ++ fmtStrings l ++ ") match the criteria; try a different search"
  | .noClassMatch => "no RDS DB Instance Classes match the criteria; try a different search"

/-- How a call ends: it returns nil, returns an error, or panics on the
look-up-and-cast of a class missing from `instanceInfo`. -/
inductive Outcome where
  | ok
  | err (e : ReadError)
  | panic
deriving DecidableEq, Repr

/-- Lines 166-190: the request built from the criteria. -/
def buildInput (d : ResourceData) : DescribeOrderableDBInstanceOptionsInput :=
  let input := emptyInput
  let input :=
    if (GetOkString d.config.availability_zone_group).2 then
      { input with AvailabilityZoneGroup := some (GetOkString d.config.availability_zone_group).1 }
    else input
  let input :=
    if (GetOkString d.config.db_instance_class).2 then
      { input with DBInstanceClass := some (GetOkString d.config.db_instance_class).1 }
    else input
  let input :=
    if (GetOkString (some d.config.engine)).2 then
      { input with Engine := some (GetOkString (some d.config.engine)).1 }
    else input
  let input :=
    if (GetOkString d.config.engine_version).2 then
      { input with EngineVersion := some (GetOkString d.config.engine_version).1 }
    else input
  let input :=
    if (GetOkString d.config.license_model).2 then
      { input with LicenseModel := some (GetOkString d.config.license_model).1 }
    else input
  let input :=
    if (GetOkBool d.config.vpc).2 then
      { input with Vpc := some (GetOkBool d.config.vpc).1 }
    else input
  input

/-- The three accumulators declared on lines 193-195. -/
structure Acc where
  instanceClassResults : List String
  instanceEngineVersions : List String
  instanceInfo : List (String × OrderableDBInstanceOption)
deriving DecidableEq, Repr

/-- The accumulators before the first page. -/
def emptyAcc : Acc :=
  { instanceClassResults := [], instanceEngineVersions := [], instanceInfo := [] }

/-- Lines 199-213: the body of the loop over the records of one page. -/
def recordStep (d : ResourceData) (acc : Acc)
    (instanceOption : Option OrderableDBInstanceOption) : Acc :=
  match instanceOption with
  | none => acc
  | some o =>
    if (GetOkString d.config.storage_type).2 = true ∧
        StringValue o.StorageType ≠ (GetOkString d.config.storage_type).1 then acc
    else
      let instanceClass := StringValue o.DBInstanceClass
      { instanceClassResults := acc.instanceClassResults ++ [instanceClass],
        instanceInfo := mapSet acc.instanceInfo instanceClass o,
        instanceEngineVersions := acc.instanceEngineVersions ++ [StringValue o.EngineVersion] }

/-- Lines 197-216: the page callback; it asks for more pages unless this was
the last one. -/
def pageCallback (d : ResourceData) (acc : Acc)
    (resp : DescribeOrderableDBInstanceOptionsOutput) (lastPage : Bool) : Acc × Bool :=
  (resp.OrderableDBInstanceOptions.foldl (recordStep d) acc, !lastPage)

/-- Lines 236-241: the inner loop over `instanceClassResults`. -/
def scanResults (preferredInstanceClass : String) :
    List String → String → String
  | [], foundInstanceClass => foundInstanceClass
  | instanceClassResult :: rest, foundInstanceClass =>
    if instanceClassResult = preferredInstanceClass then preferredInstanceClass
    else scanResults preferredInstanceClass rest foundInstanceClass

/-- Lines 229-246: the loop over the preference list. -/
def scanPreferred (instanceClassResults : List String) :
    List (Option String) → String → String
  | [], foundInstanceClass => foundInstanceClass
  | none :: l, foundInstanceClass => scanPreferred instanceClassResults l foundInstanceClass
  | some preferredInstanceClass :: l, foundInstanceClass =>
    let found := scanResults preferredInstanceClass instanceClassResults foundInstanceClass
    if found ≠ "" then found else scanPreferred instanceClassResults l found

/-- Lines 227-259: the class selected from the retained classes and the
preference list, or the error returned instead. -/
def selectClass (d : ResourceData) (instanceClassResults : List String) :
    Except ReadError String :=
  let foundInstanceClass :=
    if d.config.preferred_db_instance_classes.length > 0 then
      scanPreferred instanceClassResults d.config.preferred_db_instance_classes ""
    else ""
  if foundInstanceClass = "" ∧ instanceClassResults.length > 1 then
    .error (.multiple instanceClassResults)
  else
    let foundInstanceClass :=
      if foundInstanceClass = "" ∧ instanceClassResults.length = 1 then
        instanceClassResults.headD ""
      else foundInstanceClass
    if foundInstanceClass = "" then .error .noClassMatch
    else .ok foundInstanceClass

/-- Lines 267-298: every field of the selected record is written to `d`. -/
def emitOption (d : ResourceData) (instanceOption : OrderableDBInstanceOption) : ResourceData :=
  let d := d.Set "availability_zone_group" (.stringPtr instanceOption.AvailabilityZoneGroup)
  let availabilityZones := instanceOption.AvailabilityZones.map (fun az => az.Name)
  let d := d.Set "availability_zones" (.stringPtrList availabilityZones)
  let d := d.Set "engine" (.stringPtr instanceOption.Engine)
  let d := d.Set "engine_version" (.stringPtr instanceOption.EngineVersion)
  let d := d.Set "license_model" (.stringPtr instanceOption.LicenseModel)
  let d := d.Set "max_iops_per_db_instance" (.int64Ptr instanceOption.MaxIopsPerDbInstance)
  let d := d.Set "max_iops_per_gib" (.float64Ptr instanceOption.MaxIopsPerGib)
  let d := d.Set "max_storage_size" (.int64Ptr instanceOption.MaxStorageSize)
  let d := d.Set "min_iops_per_db_instance" (.int64Ptr instanceOption.MinIopsPerDbInstance)
  let d := d.Set "min_iops_per_gib" (.float64Ptr instanceOption.MinIopsPerGib)
  let d := d.Set "min_storage_size" (.int64Ptr instanceOption.MinStorageSize)
  let d := d.Set "multi_az_capable" (.boolPtr instanceOption.MultiAZCapable)
  let d := d.Set "outpost_capable" (.boolPtr instanceOption.OutpostCapable)
  let d := d.Set "read_replica_capable" (.boolPtr instanceOption.ReadReplicaCapable)
  let d := d.Set "storage_type" (.stringPtr instanceOption.StorageType)
  let d := d.Set "supported_engine_modes" (.stringPtrList instanceOption.SupportedEngineModes)
  let d := d.Set "supports_enhanced_monitoring" (.boolPtr instanceOption.SupportsEnhancedMonitoring)
  let d := d.Set "supports_global_databases" (.boolPtr instanceOption.SupportsGlobalDatabases)
  let d := d.Set "supports_iam_database_authentication"
    (.boolPtr instanceOption.SupportsIAMDatabaseAuthentication)
  let d := d.Set "supports_iops" (.boolPtr instanceOption.SupportsIops)
  let d := d.Set "supports_kerberos_authentication"
    (.boolPtr instanceOption.SupportsKerberosAuthentication)
  let d := d.Set "supports_performance_insights" (.boolPtr instanceOption.SupportsPerformanceInsights)
  let d := d.Set "supports_storage_autoscaling" (.boolPtr instanceOption.SupportsStorageAutoscaling)
  let d := d.Set "supports_storage_encryption" (.boolPtr instanceOption.SupportsStorageEncryption)
  let d := d.Set "vpc" (.boolPtr instanceOption.Vpc)
  d

/-- The function `dataSourceAwsRdsOrderableDbInstanceRead`: the resource data
after the call, and how the call ended. -/
def dataSourceAwsRdsOrderableDbInstanceRead
    (conn : DescribeOrderableDBInstanceOptionsInput → PagesResult) (d : ResourceData) :
    ResourceData × Outcome :=
  let input := buildInput d
  let r := DescribeOrderableDBInstanceOptionsPages conn input (pageCallback d) emptyAcc
  match r.2 with
  | some err => (d, .err (.remote err))
  | none =>
    if r.1.instanceClassResults.length = 0 then (d, .err .noOptions)
    else
      match selectClass d r.1.instanceClassResults with
      | .error e => (d, .err e)
      | .ok foundInstanceClass =>
        let d := d.SetId foundInstanceClass
        let d := d.Set "db_instance_class" (.string foundInstanceClass)
        match mapGet r.1.instanceInfo foundInstanceClass with
        | none => (d, .panic)
        | some instanceOption => (emitOption d instanceOption, .ok)

/-! ## `LexSlotTypeStatus` -/

/-- The type `lexmodelbuildingservice.SlotTypeMetadata`. -/
structure SlotTypeMetadata where
  Description : Option String
  Name : Option String
  Version : Option String
deriving DecidableEq, Repr

/-- The type `lexmodelbuildingservice.GetSlotTypeVersionsInput`. -/
structure GetSlotTypeVersionsInput where
  MaxResults : Option Int
  Name : Option String
  NextToken : Option String
deriving DecidableEq, Repr

/-- The type `lexmodelbuildingservice.GetSlotTypeVersionsOutput`. -/
structure GetSlotTypeVersionsOutput where
  NextToken : Option String
  SlotTypes : List (Option SlotTypeMetadata)
deriving DecidableEq, Repr

/-- The constant `LexModelBuildingServiceStatusCreated`. -/
def LexModelBuildingServiceStatusCreated : String := "Created"

/-- The constant `LexModelBuildingServiceStatusNotFound`. -/
def LexModelBuildingServiceStatusNotFound : String := "NotFound"

/-- The constant `LexModelBuildingServiceStatusUnknown`. -/
def LexModelBuildingServiceStatusUnknown : String := "Unknown"

/-- The constant `lexmodelbuildingservice.ErrCodeNotFoundException`. -/
def ErrCodeNotFoundException : String := "NotFoundException"

/-- The helper `tfawserr.ErrCodeEquals`: the error is an AWS error with this
code.  A nil error has no code. -/
def ErrCodeEquals (err : Option GoError) (code : String) : Bool :=
  match err with
  | none => false
  | some e => decide (e.awsCode = some code)

/-- The function `LexSlotTypeStatus`: the refresh function it returns, which
yields the value, the state and the error of one poll. -/
def LexSlotTypeStatus
    (conn : GetSlotTypeVersionsInput → Option GetSlotTypeVersionsOutput × Option GoError)
    (id : String) : Unit → Option GetSlotTypeVersionsOutput × String × Option GoError :=
  fun _ =>
    let r := conn { MaxResults := none, Name := some id, NextToken := none }
    let output := r.1
    let err := r.2
    if ErrCodeEquals err ErrCodeNotFoundException then
      (none, LexModelBuildingServiceStatusNotFound, none)
    else
      match err with
      | some e => (none, LexModelBuildingServiceStatusUnknown, some e)
      | none =>
        match output with
        | none => (none, LexModelBuildingServiceStatusNotFound, none)
        | some o =>
          if o.SlotTypes.length = 0 then (none, LexModelBuildingServiceStatusNotFound, none)
          else (some o, LexModelBuildingServiceStatusCreated, none)

/-! ## The retained records -/

/-- Line 209: the instance class of a record. -/
def instanceClassOf (o : OrderableDBInstanceOption) : String :=
  StringValue o.DBInstanceClass

/-- Lines 203-207: the record passes the storage-type test. -/
def keeps (d : ResourceData) (o : OrderableDBInstanceOption) : Bool :=
  decide (¬ ((GetOkString d.config.storage_type).2 = true ∧
    StringValue o.StorageType ≠ (GetOkString d.config.storage_type).1))

/-- The records of all pages, in arrival order. -/
def allRecords : List DescribeOrderableDBInstanceOptionsOutput →
    List (Option OrderableDBInstanceOption)
  | [] => []
  | p :: rest => p.OrderableDBInstanceOptions ++ allRecords rest

/-- The non-nil records that pass the storage-type test, in arrival order. -/
def retainedOf (d : ResourceData) :
    List (Option OrderableDBInstanceOption) → List OrderableDBInstanceOption
  | [] => []
  | none :: l => retainedOf d l
  | some o :: l => if keeps d o then o :: retainedOf d l else retainedOf d l

/-- The retained records of a call: those of the pages the remote service
delivers for the request built from `d`. -/
def retained (conn : DescribeOrderableDBInstanceOptionsInput → PagesResult)
    (d : ResourceData) : List OrderableDBInstanceOption :=
  retainedOf d (allRecords (conn (buildInput d)).pages)

/-- The class-keyed map after the given records were stored in it in order. -/
def insertAll (m : List (String × OrderableDBInstanceOption))
    (l : List OrderableDBInstanceOption) : List (String × OrderableDBInstanceOption) :=
  l.foldl (fun m o => mapSet m (instanceClassOf o) o) m

/-- The accumulators after the retrieval. -/
def collected (conn : DescribeOrderableDBInstanceOptionsInput → PagesResult)
    (d : ResourceData) : Acc :=
  (DescribeOrderableDBInstanceOptionsPages conn (buildInput d) (pageCallback d) emptyAcc).1

/-- A remote service restricted to the non-nil records whose storage type is
exactly `s`. -/
def storageFiltered (s : String)
    (conn : DescribeOrderableDBInstanceOptionsInput → PagesResult) :
    DescribeOrderableDBInstanceOptionsInput → PagesResult :=
  fun input =>
    { pages := (conn input).pages.map (fun p =>
        { p with OrderableDBInstanceOptions := p.OrderableDBInstanceOptions.filter (fun r =>
            match r with
            | none => false
            | some o => decide (StringValue o.StorageType = s)) }),
      err := (conn input).err }

/-- The same resource data with no storage-type criterion. -/
def withoutStorageType (d : ResourceData) : ResourceData :=
  { d with config := { d.config with storage_type := none } }

/-! ## Test data -/

/-- A record with every field absent. -/
def blankOption : OrderableDBInstanceOption :=
  { AvailabilityZoneGroup := none, AvailabilityZones := [], DBInstanceClass := none,
    Engine := none, EngineVersion := none, LicenseModel := none,
    MaxIopsPerDbInstance := none, MaxIopsPerGib := none, MaxStorageSize := none,
    MinIopsPerDbInstance := none, MinIopsPerGib := none, MinStorageSize := none,
    MultiAZCapable := none, OutpostCapable := none, ReadReplicaCapable := none,
    StorageType := none, SupportedEngineModes := [], SupportsEnhancedMonitoring := none,
    SupportsGlobalDatabases := none, SupportsIAMDatabaseAuthentication := none,
    SupportsIops := none, SupportsKerberosAuthentication := none,
    SupportsPerformanceInsights := none, SupportsStorageAutoscaling := none,
    SupportsStorageEncryption := none, Vpc := none }

/-- A record of the given class and storage type. -/
def mkOption (cls storage : String) : OrderableDBInstanceOption :=
  { blankOption with DBInstanceClass := some cls, StorageType := some storage }

/-- A configuration with only the engine set. -/
def blankConfig : Config :=
  { availability_zone_group := none, db_instance_class := none, engine := "mysql",
    engine_version := none, license_model := none, storage_type := none,
    preferred_db_instance_classes := [], vpc := none }

/-- Fresh resource data for a configuration. -/
def freshData (c : Config) : ResourceData :=
  { config := c, id := "", attrs := [] }

/-- A remote service that answers every request with one page of the given
records. -/
def onePage (l : List OrderableDBInstanceOption) :
    DescribeOrderableDBInstanceOptionsInput → PagesResult :=
  fun _ => { pages := [{ Marker := none, OrderableDBInstanceOptions := l.map some }], err := none }

/-- Two candidates, as in the acceptance test of the preference list. -/
def twoSmall : DescribeOrderableDBInstanceOptionsInput → PagesResult :=
  onePage [mkOption "db.t2.small" "standard", mkOption "db.t3.small" "standard"]

/-- The criteria of the acceptance test of the preference list. -/
def preferredData : ResourceData :=
  freshData { blankConfig with
    engine_version := some "5.7.22", license_model := some "general-public-license",
    storage_type := some "standard",
    preferred_db_instance_classes := [some "db.xyz.xlarge", some "db.t2.small", some "db.t3.small"] }

/-- Two candidates, the first with the empty string as its instance class. -/
def emptyClassFirst : DescribeOrderableDBInstanceOptionsInput → PagesResult :=
  onePage [mkOption "" "standard", mkOption "db.t3.small" "standard"]

/-- A preference list whose only entry is the empty string. -/
def emptyPreferredData : ResourceData :=
  freshData { blankConfig with preferred_db_instance_classes := [some ""] }

/-- A single candidate whose instance class is absent. -/
def classlessOnly : DescribeOrderableDBInstanceOptionsInput → PagesResult :=
  onePage [{ blankOption with Engine := some "mysql", StorageType := some "standard" }]

/-- A single candidate of storage type gp2. -/
def gp2Only : DescribeOrderableDBInstanceOptionsInput → PagesResult :=
  onePage [mkOption "db.t2.small" "gp2"]

/-- A single candidate of storage type io1. -/
def io1Only : DescribeOrderableDBInstanceOptionsInput → PagesResult :=
  onePage [mkOption "db.t3.small" "io1"]

/-- The storage-type criterion supplied as the empty string. -/
def emptyStorageData : ResourceData :=
  freshData { blankConfig with storage_type := some "" }

/-- The storage-type criterion supplied as standard. -/
def standardData : ResourceData :=
  freshData { blankConfig with storage_type := some "standard" }

/-- Criteria supplied with zero values: `vpc = false` and empty strings. -/
def zeroValuedData : ResourceData :=
  freshData { blankConfig with
    availability_zone_group := some "", db_instance_class := some "", engine := "",
    engine_version := some "", license_model := some "", vpc := some false }

/-- A page holding a nil record and a gp2 record, and then an empty page. -/
def nilAndGp2 : DescribeOrderableDBInstanceOptionsInput → PagesResult :=
  fun _ =>
    { pages := [{ Marker := some "m", OrderableDBInstanceOptions :=
                    [none, some (mkOption "db.t2.small" "gp2")] },
                { Marker := none, OrderableDBInstanceOptions := [] }],
      err := none }

/-- The standard storage type with a preference list. -/
def standardPreferredData : ResourceData :=
  freshData { blankConfig with
    storage_type := some "standard",
    preferred_db_instance_classes := [some "db.t2.small"] }

/-- Three candidates over two pages, two of them of the same class. -/
def duplicateClass : DescribeOrderableDBInstanceOptionsInput → PagesResult :=
  fun _ =>
    { pages := [{ Marker := some "m", OrderableDBInstanceOptions :=
                    [some { (mkOption "db.t2.small" "standard") with EngineVersion := some "5.7.22" },
                     some (mkOption "db.t3.small" "standard")] },
                { Marker := none, OrderableDBInstanceOptions :=
                    [some { (mkOption "db.t2.small" "standard") with EngineVersion := some "8.0.11" }] }],
      err := none }

/-- Two candidates of one and the same class. -/
def sameClassTwice : DescribeOrderableDBInstanceOptionsInput → PagesResult :=
  onePage [{ (mkOption "db.t2.small" "standard") with EngineVersion := some "5.7.22" },
    { (mkOption "db.t2.small" "standard") with EngineVersion := some "8.0.11" }]

/-- A remote service whose retrieval fails. -/
def failing : DescribeOrderableDBInstanceOptionsInput → PagesResult :=
  fun _ => { pages := [], err := some { awsCode := some "Throttling", text := "rate exceeded" } }

/-- A slot-type lookup that finds one version. -/
def oneSlotType :
    GetSlotTypeVersionsInput → Option GetSlotTypeVersionsOutput × Option GoError :=
  fun _ => (some { NextToken := none, SlotTypes := [none] }, none)

/-! ## Lemmas on maps and the attribute store -/

theorem mapGet_mapSet_self {V : Type} (m : List (String × V)) (k : String) (v : V) :
    mapGet (mapSet m k v) k = some v := by
  induction m with
  | nil => simp [mapSet, mapGet]
  | cons e rest ih =>
    by_cases h : e.1 = k
    · simp [mapSet, mapGet, h]
    · simp [mapSet, mapGet, h, ih]

theorem mapGet_mapSet_of_ne {V : Type} (m : List (String × V)) (k k' : String) (v : V)
    (hne : k' ≠ k) : mapGet (mapSet m k v) k' = mapGet m k' := by
  induction m with
  | nil => simp [mapSet, mapGet, Ne.symm hne]
  | cons e rest ih =>
    by_cases h : e.1 = k
    · have h' : ¬ e.1 = k' := fun h2 => hne (h2.symm.trans h)
      simp [mapSet, mapGet, h, h', Ne.symm hne]
    · by_cases h2 : e.1 = k'
      · have h3 : ¬ k' = k := hne
        simp [mapSet, mapGet, h2, h3]
      · simp [mapSet, mapGet, h, h2, ih]

theorem attr_Set_self (d : ResourceData) (k : String) (v : AttrValue) :
    (d.Set k v).attr k = some v := by
  simp [ResourceData.Set, ResourceData.attr, mapGet_mapSet_self]

theorem attr_Set_of_ne (d : ResourceData) (k k' : String) (v : AttrValue) (hne : k' ≠ k) :
    (d.Set k v).attr k' = d.attr k' := by
  simp [ResourceData.Set, ResourceData.attr, mapGet_mapSet_of_ne _ _ _ _ hne]

theorem id_Set (d : ResourceData) (k : String) (v : AttrValue) : (d.Set k v).id = d.id := rfl

theorem id_emitOption (d : ResourceData) (o : OrderableDBInstanceOption) :
    (emitOption d o).id = d.id := by
  simp only [emitOption, id_Set]

theorem mapGet_insertAll_of_not_mem (l : List OrderableDBInstanceOption)
    (m : List (String × OrderableDBInstanceOption)) (k : String)
    (h : ∀ x ∈ l, instanceClassOf x ≠ k) : mapGet (insertAll m l) k = mapGet m k := by
  induction l generalizing m with
  | nil => rfl
  | cons a t ih =>
    have ha : k ≠ instanceClassOf a := fun e => h a (List.mem_cons_self _ _) e.symm
    have ht : ∀ x ∈ t, instanceClassOf x ≠ k := fun x hx => h x (List.mem_cons_of_mem _ hx)
    show mapGet (insertAll (mapSet m (instanceClassOf a) a) t) k = mapGet m k
    rw [ih _ ht, mapGet_mapSet_of_ne _ _ _ _ ha]

theorem mapGet_insertAll_last (pre post : List OrderableDBInstanceOption)
    (o : OrderableDBInstanceOption) (m : List (String × OrderableDBInstanceOption))
    (k : String) (hk : instanceClassOf o = k) (h : ∀ x ∈ post, instanceClassOf x ≠ k) :
    mapGet (insertAll m (pre ++ o :: post)) k = some o := by
  have e : insertAll m (pre ++ o :: post)
      = insertAll (mapSet (insertAll m pre) (instanceClassOf o) o) post := by
    simp [insertAll, List.foldl_append]
  rw [e, mapGet_insertAll_of_not_mem _ _ _ h, hk, mapGet_mapSet_self]

theorem exists_last_of_class (l : List OrderableDBInstanceOption) (k : String)
    (h : ∃ o ∈ l, instanceClassOf o = k) :
    ∃ pre o post, l = pre ++ o :: post ∧ instanceClassOf o = k ∧
      ∀ x ∈ post, instanceClassOf x ≠ k := by
  induction l with
  | nil => obtain ⟨o, ho, _⟩ := h; cases ho
  | cons a t ih =>
    by_cases ht : ∃ o ∈ t, instanceClassOf o = k
    · obtain ⟨pre, o, post, e, hk, hp⟩ := ih ht
      exact ⟨a :: pre, o, post, by simp [e], hk, hp⟩
    · obtain ⟨o, ho, hk⟩ := h
      rcases List.mem_cons.mp ho with rfl | ho
      · exact ⟨[], o, t, rfl, hk, fun x hx e => ht ⟨x, hx, e⟩⟩
      · exact absurd ⟨o, ho, hk⟩ ht

/-! ## Lemmas on the retrieval -/

theorem pagesLoop_pageCallback (d : ResourceData) (err : Option GoError)
    (pages : List DescribeOrderableDBInstanceOptionsOutput) (acc : Acc) :
    pagesLoop (pageCallback d) err pages acc
      = ((allRecords pages).foldl (recordStep d) acc, err) := by
  induction pages generalizing acc with
  | nil => rfl
  | cons p rest ih =>
    cases rest with
    | nil =>
      cases err with
      | none => simp [pagesLoop, pageCallback, allRecords]
      | some e => simp [pagesLoop, pageCallback, allRecords]
    | cons q rest2 =>
      have := ih (p.OrderableDBInstanceOptions.foldl (recordStep d) acc)
      simp only [pagesLoop, pageCallback, allRecords, List.isEmpty_cons, Bool.false_and,
        Bool.not_false, if_true, List.foldl_append] at this ⊢
      exact this

theorem foldl_recordStep (d : ResourceData) (recs : List (Option OrderableDBInstanceOption))
    (acc : Acc) :
    recs.foldl (recordStep d) acc =
      { instanceClassResults :=
          acc.instanceClassResults ++ (retainedOf d recs).map instanceClassOf,
        instanceEngineVersions :=
          acc.instanceEngineVersions ++ (retainedOf d recs).map (fun o => StringValue o.EngineVersion),
        instanceInfo := insertAll acc.instanceInfo (retainedOf d recs) } := by
  induction recs generalizing acc with
  | nil => simp [retainedOf, insertAll]
  | cons r t ih =>
    cases r with
    | none => simpa [recordStep, retainedOf] using ih acc
    | some o =>
      by_cases hk : keeps d o = true
      · have hc : ¬ ((GetOkString d.config.storage_type).2 = true ∧
            StringValue o.StorageType ≠ (GetOkString d.config.storage_type).1) := by
          intro hcon
          simp [keeps, hcon] at hk
        simp only [List.foldl_cons, recordStep, if_neg hc, retainedOf, hk, if_true]
        rw [ih]
        simp [insertAll, instanceClassOf]
      · have hc : (GetOkString d.config.storage_type).2 = true ∧
            StringValue o.StorageType ≠ (GetOkString d.config.storage_type).1 := by
          by_contra hn
          exact hk (by simp [keeps, hn])
        simp only [List.foldl_cons, recordStep, if_pos hc, retainedOf, hk]
        simpa using ih acc

theorem collected_eq (conn : DescribeOrderableDBInstanceOptionsInput → PagesResult)
    (d : ResourceData) :
    collected conn d =
      { instanceClassResults := (retained conn d).map instanceClassOf,
        instanceEngineVersions := (retained conn d).map (fun o => StringValue o.EngineVersion),
        instanceInfo := insertAll [] (retained conn d) } := by
  simp [collected, DescribeOrderableDBInstanceOptionsPages, pagesLoop_pageCallback,
    foldl_recordStep, emptyAcc, retained]

/-- The function in terms of the retained records, when the retrieval succeeds. -/
theorem read_eq (conn : DescribeOrderableDBInstanceOptionsInput → PagesResult)
    (d : ResourceData) (h : (conn (buildInput d)).err = none) :
    dataSourceAwsRdsOrderableDbInstanceRead conn d =
      if (retained conn d).length = 0 then (d, .err .noOptions)
      else
        match selectClass d ((retained conn d).map instanceClassOf) with
        | .error e => (d, .err e)
        | .ok c =>
          match mapGet (insertAll [] (retained conn d)) c with
          | none => ((d.SetId c).Set "db_instance_class" (.string c), .panic)
          | some o => (emitOption ((d.SetId c).Set "db_instance_class" (.string c)) o, .ok) := by
  simp [dataSourceAwsRdsOrderableDbInstanceRead, DescribeOrderableDBInstanceOptionsPages,
    pagesLoop_pageCallback, foldl_recordStep, emptyAcc, retained, h]

theorem read_remote_err (conn : DescribeOrderableDBInstanceOptionsInput → PagesResult)
    (d : ResourceData) (e : GoError) (h : (conn (buildInput d)).err = some e) :
    dataSourceAwsRdsOrderableDbInstanceRead conn d = (d, .err (.remote e)) := by
  simp [dataSourceAwsRdsOrderableDbInstanceRead, DescribeOrderableDBInstanceOptionsPages,
    pagesLoop_pageCallback, h]

/-! ## Lemmas on the selection -/

theorem scanResults_eq (p : String) (results : List String) (found : String) :
    scanResults p results found = if p ∈ results then p else found := by
  induction results with
  | nil => simp [scanResults]
  | cons r t ih =>
    by_cases h : r = p
    · simp [scanResults, h]
    · have h' : ¬ p = r := fun e => h e.symm
      simp [scanResults, h, h', ih]

theorem scanPreferred_none (results : List String) (l : List (Option String))
    (h : ∀ p, some p ∈ l → p ≠ "" → p ∉ results) : scanPreferred results l "" = "" := by
  induction l with
  | nil => rfl
  | cons a t ih =>
    have ht : ∀ p, some p ∈ t → p ≠ "" → p ∉ results :=
      fun p hp => h p (List.mem_cons_of_mem _ hp)
    cases a with
    | none => simpa [scanPreferred] using ih ht
    | some p =>
      have hf : scanResults p results "" = "" := by
        rw [scanResults_eq]
        by_cases hm : p ∈ results
        · by_cases hp : p = ""
          · simp [hp]
          · exact absurd hm (h p (List.mem_cons_self _ _) hp)
        · simp [hm]
      simp only [scanPreferred, hf, ne_eq, not_true_eq_false, if_false]
      exact ih ht

theorem scanPreferred_first (results : List String) (pre post : List (Option String))
    (c : String) (hc : c ≠ "") (hmem : c ∈ results)
    (hpre : ∀ p, some p ∈ pre → p ≠ "" → p ∉ results) :
    scanPreferred results (pre ++ some c :: post) "" = c := by
  induction pre with
  | nil =>
    have hf : scanResults c results "" = c := by rw [scanResults_eq]; simp [hmem]
    simp [scanPreferred, hf, hc]
  | cons a t ih =>
    have ht : ∀ p, some p ∈ t → p ≠ "" → p ∉ results :=
      fun p hp => hpre p (List.mem_cons_of_mem _ hp)
    cases a with
    | none => simpa [scanPreferred] using ih ht
    | some p =>
      have hf : scanResults p results "" = "" := by
        rw [scanResults_eq]
        by_cases hm : p ∈ results
        · by_cases hp : p = ""
          · simp [hp]
          · exact absurd hm (hpre p (List.mem_cons_self _ _) hp)
        · simp [hm]
      simp only [List.cons_append, scanPreferred, hf, ne_eq, not_true_eq_false, if_false]
      exact ih ht

theorem scanPreferred_mem (results : List String) (l : List (Option String)) :
    scanPreferred results l "" = "" ∨
      (scanPreferred results l "" ≠ "" ∧ scanPreferred results l "" ∈ results) := by
  induction l with
  | nil => left; rfl
  | cons a t ih =>
    cases a with
    | none => simpa [scanPreferred] using ih
    | some p =>
      by_cases hm : p ∈ results
      · have hf : scanResults p results "" = p := by rw [scanResults_eq]; simp [hm]
        by_cases hp : p = ""
        · subst hp
          simp only [scanPreferred, hf, ne_eq, not_true_eq_false, if_false]
          exact ih
        · right
          simp [scanPreferred, hf, hp, hm]
      · have hf : scanResults p results "" = "" := by rw [scanResults_eq]; simp [hm]
        simp only [scanPreferred, hf, ne_eq, not_true_eq_false, if_false]
        exact ih

theorem exists_first_present (results : List String) (l : List (Option String))
    (h : ∃ c, some c ∈ l ∧ c ≠ "" ∧ c ∈ results) :
    ∃ pre c post, l = pre ++ some c :: post ∧ c ≠ "" ∧ c ∈ results ∧
      ∀ p, some p ∈ pre → p ≠ "" → p ∉ results := by
  induction l with
  | nil => obtain ⟨c, hc, _⟩ := h; cases hc
  | cons a t ih =>
    by_cases ha : ∃ c, a = some c ∧ c ≠ "" ∧ c ∈ results
    · obtain ⟨c, rfl, hc, hm⟩ := ha
      exact ⟨[], c, t, rfl, hc, hm, fun p hp => by cases hp⟩
    · have ht : ∃ c, some c ∈ t ∧ c ≠ "" ∧ c ∈ results := by
        obtain ⟨c, hc, hne, hm⟩ := h
        rcases List.mem_cons.mp hc with e | hc
        · exact absurd ⟨c, e.symm, hne, hm⟩ ha
        · exact ⟨c, hc, hne, hm⟩
      obtain ⟨pre, c, post, e, hc, hm, hp⟩ := ih ht
      refine ⟨a :: pre, c, post, by simp [e], hc, hm, ?_⟩
      intro p hp' hne hmem
      rcases List.mem_cons.mp hp' with e2 | hp'
      · exact ha ⟨p, e2.symm, hne, hmem⟩
      · exact hp p hp' hne hmem

theorem selectClass_eq (d : ResourceData) (results : List String) :
    selectClass d results =
      if scanPreferred results d.config.preferred_db_instance_classes "" = "" ∧
          results.length > 1 then .error (.multiple results)
      else if (if scanPreferred results d.config.preferred_db_instance_classes "" = "" ∧
          results.length = 1 then results.headD ""
          else scanPreferred results d.config.preferred_db_instance_classes "") = ""
        then .error .noClassMatch
      else .ok (if scanPreferred results d.config.preferred_db_instance_classes "" = "" ∧
          results.length = 1 then results.headD ""
          else scanPreferred results d.config.preferred_db_instance_classes "") := by
  cases h : d.config.preferred_db_instance_classes with
  | nil => simp [selectClass, h, scanPreferred]
  | cons a t => simp [selectClass, h]

theorem selectClass_first (d : ResourceData) (results : List String)
    (pre post : List (Option String)) (c : String)
    (hpref : d.config.preferred_db_instance_classes = pre ++ some c :: post)
    (hc : c ≠ "") (hmem : c ∈ results)
    (hpre : ∀ p, some p ∈ pre → p ≠ "" → p ∉ results) :
    selectClass d results = .ok c := by
  rw [selectClass_eq, hpref, scanPreferred_first results pre post c hc hmem hpre]
  simp [hc]

theorem selectClass_multiple (d : ResourceData) (results : List String)
    (hlen : 2 ≤ results.length)
    (hno : ∀ p, some p ∈ d.config.preferred_db_instance_classes → p ≠ "" → p ∉ results) :
    selectClass d results = .error (.multiple results) := by
  rw [selectClass_eq, scanPreferred_none results _ hno]
  have : results.length > 1 := hlen
  simp [this]

theorem selectClass_single (d : ResourceData) (c : String) (hc : c ≠ "") :
    selectClass d [c] = .ok c := by
  rw [selectClass_eq]
  rcases scanPreferred_mem [c] d.config.preferred_db_instance_classes with h | ⟨h1, h2⟩
  · simp [h, hc]
  · have : scanPreferred [c] d.config.preferred_db_instance_classes "" = c := by simpa using h2
    simp [this, hc]

theorem selectClass_ok (d : ResourceData) (results : List String) (c : String)
    (h : selectClass d results = .ok c) : c ≠ "" ∧ c ∈ results := by
  rw [selectClass_eq] at h
  have hm := scanPreferred_mem results d.config.preferred_db_instance_classes
  generalize scanPreferred results d.config.preferred_db_instance_classes "" = f at h hm
  by_cases h0 : f = ""
  · subst h0
    rcases results with _ | ⟨a, _ | ⟨b, u⟩⟩
    · simp at h
    · by_cases ha : a = ""
      · simp [ha] at h
      · simp [ha] at h
        subst h
        exact ⟨ha, by simp⟩
    · simp at h
  · rcases hm with hm | ⟨_, hm⟩
    · exact absurd hm h0
    · simp [h0] at h
      subst h
      exact ⟨h0, hm⟩

theorem selectClass_noClassMatch (d : ResourceData) (results : List String)
    (hne : results ≠ []) :
    selectClass d results = .error .noClassMatch ↔ results = [""] := by
  rw [selectClass_eq]
  have hm := scanPreferred_mem results d.config.preferred_db_instance_classes
  generalize scanPreferred results d.config.preferred_db_instance_classes "" = f at hm
  by_cases h0 : f = ""
  · subst h0
    rcases results with _ | ⟨a, _ | ⟨b, u⟩⟩
    · exact absurd rfl hne
    · by_cases ha : a = ""
      · simp [ha]
      · simp [ha]
    · simp
  · rcases hm with hm | ⟨_, hm⟩
    · exact absurd hm h0
    · simp only [h0, false_and, if_false]
      constructor
      · intro h; cases h
      · intro h
        subst h
        exact absurd (by simpa using hm) h0


/-! ## The status poll -/

/-- C6: the refresh function returned by `LexSlotTypeStatus` maps every outcome
of the lookup to one result.  An error with the not-found code gives
`(nil, "NotFound", nil)`; any other error gives `(nil, "Unknown", err)`; no
error with a nil response or an empty list gives `(nil, "NotFound", nil)`; no
error with a non-empty list gives `(response, "Created", nil)`.  The error is
non-nil exactly when the state is "Unknown", and the value is non-nil exactly
when the state is "Created". -/
theorem C6_LexSlotTypeStatus_cases
    (conn : GetSlotTypeVersionsInput → Option GetSlotTypeVersionsOutput × Option GoError)
    (id : String) :
    (ErrCodeEquals (conn { MaxResults := none, Name := some id, NextToken := none }).2
        ErrCodeNotFoundException = true →
      LexSlotTypeStatus conn id () = (none, "NotFound", none)) ∧
    (∀ e, (conn { MaxResults := none, Name := some id, NextToken := none }).2 = some e →
      ErrCodeEquals (some e) ErrCodeNotFoundException = false →
      LexSlotTypeStatus conn id () = (none, "Unknown", some e)) ∧
    ((conn { MaxResults := none, Name := some id, NextToken := none }).2 = none →
      ((conn { MaxResults := none, Name := some id, NextToken := none }).1 = none ∨
        ∃ o, (conn { MaxResults := none, Name := some id, NextToken := none }).1 = some o ∧
          o.SlotTypes = []) →
      LexSlotTypeStatus conn id () = (none, "NotFound", none)) ∧
    (∀ o, (conn { MaxResults := none, Name := some id, NextToken := none }).2 = none →
      (conn { MaxResults := none, Name := some id, NextToken := none }).1 = some o →
      o.SlotTypes ≠ [] →
      LexSlotTypeStatus conn id () = (some o, "Created", none)) ∧
    ((LexSlotTypeStatus conn id ()).2.2 ≠ none ↔
      (LexSlotTypeStatus conn id ()).2.1 = "Unknown") ∧
    ((LexSlotTypeStatus conn id ()).1 ≠ none ↔
      (LexSlotTypeStatus conn id ()).2.1 = "Created") := by
  unfold LexSlotTypeStatus
  rcases conn { MaxResults := none, Name := some id, NextToken := none } with ⟨out, err⟩
  simp only [LexModelBuildingServiceStatusNotFound, LexModelBuildingServiceStatusUnknown,
    LexModelBuildingServiceStatusCreated]
  cases err with
  | some e =>
    by_cases hnf : ErrCodeEquals (some e) ErrCodeNotFoundException = true
    · simp [hnf]
    · simp [hnf]
  | none =>
    have hnf : ErrCodeEquals none ErrCodeNotFoundException = false := rfl
    cases out with
    | none => simp [hnf]
    | some o =>
      by_cases hl : o.SlotTypes = []
      · simp [hnf, hl]
      · simp [hnf, hl]

/-- The lookup of `oneSlotType` yields the response in state "Created". -/
theorem C6_LexSlotTypeStatus_cases_witness :
    LexSlotTypeStatus oneSlotType "colors" ()
      = (some { NextToken := none, SlotTypes := [none] }, "Created", none) :=
  (C6_LexSlotTypeStatus_cases oneSlotType "colors").2.2.2.1 _ rfl rfl (by decide)

/-! ## The resolver -/

/-- C7: whenever `dataSourceAwsRdsOrderableDbInstanceRead` returns an error
(remote failure, zero matches, ambiguous matches, no class), the resource data
(attribute store and identifier) is exactly as it was before the call. -/
theorem C7_no_writes_on_error
    (conn : DescribeOrderableDBInstanceOptionsInput → PagesResult) (d : ResourceData)
    (e : ReadError) (h : (dataSourceAwsRdsOrderableDbInstanceRead conn d).2 = .err e) :
    (dataSourceAwsRdsOrderableDbInstanceRead conn d).1 = d := by
  cases herr : (conn (buildInput d)).err with
  | some g => rw [read_remote_err conn d g herr]
  | none =>
    rw [read_eq conn d herr] at h ⊢
    by_cases hl : (retained conn d).length = 0
    · simp [hl]
    · simp only [hl, if_false] at h ⊢
      cases hs : selectClass d ((retained conn d).map instanceClassOf) with
      | error e2 => simp
      | ok c =>
        simp only [hs] at h
        cases hg : mapGet (insertAll [] (retained conn d)) c with
        | none => simp [hg] at h
        | some o => simp [hg] at h

/-- A failed retrieval leaves the resource data untouched. -/
theorem C7_no_writes_on_error_witness :
    (dataSourceAwsRdsOrderableDbInstanceRead failing preferredData).2
        = .err (.remote { awsCode := some "Throttling", text := "rate exceeded" }) ∧
      (dataSourceAwsRdsOrderableDbInstanceRead failing preferredData).1 = preferredData :=
  ⟨by decide, C7_no_writes_on_error failing preferredData
    (.remote { awsCode := some "Throttling", text := "rate exceeded" }) (by decide)⟩

theorem buildInput_eq (d : ResourceData) :
    buildInput d =
      { AvailabilityZoneGroup :=
          if (GetOkString d.config.availability_zone_group).2 = true then
            some (GetOkString d.config.availability_zone_group).1 else none,
        DBInstanceClass :=
          if (GetOkString d.config.db_instance_class).2 = true then
            some (GetOkString d.config.db_instance_class).1 else none,
        Engine :=
          if (GetOkString (some d.config.engine)).2 = true then
            some (GetOkString (some d.config.engine)).1 else none,
        EngineVersion :=
          if (GetOkString d.config.engine_version).2 = true then
            some (GetOkString d.config.engine_version).1 else none,
        Filters := [],
        LicenseModel :=
          if (GetOkString d.config.license_model).2 = true then
            some (GetOkString d.config.license_model).1 else none,
        Marker := none,
        MaxRecords := none,
        Vpc :=
          if (GetOkBool d.config.vpc).2 = true then
            some (GetOkBool d.config.vpc).1 else none } := by
  simp only [buildInput, emptyInput]
  split_ifs <;> rfl

/-- C8, as stated, fails: `vpc` supplied as `false` and a string criterion
supplied as the empty string are left out of the request. -/
theorem C8_zero_values_omitted :
    zeroValuedData.config.vpc = some false ∧ (buildInput zeroValuedData).Vpc = none ∧
    zeroValuedData.config.availability_zone_group = some "" ∧
      (buildInput zeroValuedData).AvailabilityZoneGroup = none := by
  decide

/-- C8, amended: each of the six request fields carries the supplied value
exactly when the criterion was supplied with a non-zero value (a non-empty
string, `true` for `vpc`) and is unset otherwise; the other request fields are
unset, and the request does not depend on `storage_type` or
`preferred_db_instance_classes`. -/
theorem C8_request_fields (d : ResourceData) :
    (∀ v, (buildInput d).AvailabilityZoneGroup = some v ↔
      d.config.availability_zone_group = some v ∧ v ≠ "") ∧
    (∀ v, (buildInput d).DBInstanceClass = some v ↔
      d.config.db_instance_class = some v ∧ v ≠ "") ∧
    (∀ v, (buildInput d).Engine = some v ↔ d.config.engine = v ∧ v ≠ "") ∧
    (∀ v, (buildInput d).EngineVersion = some v ↔
      d.config.engine_version = some v ∧ v ≠ "") ∧
    (∀ v, (buildInput d).LicenseModel = some v ↔
      d.config.license_model = some v ∧ v ≠ "") ∧
    (∀ v, (buildInput d).Vpc = some v ↔ d.config.vpc = some v ∧ v = true) ∧
    (buildInput d).Filters = [] ∧ (buildInput d).Marker = none ∧
    (buildInput d).MaxRecords = none ∧
    (∀ st pl, buildInput { d with config := { d.config with
        storage_type := st, preferred_db_instance_classes := pl } } = buildInput d) := by
  rw [buildInput_eq]
  rcases d with ⟨⟨azg, cls, eng, ev, lm, st0, pl0, vpc⟩, id, attrs⟩
  refine ⟨?_, ?_, ?_, ?_, ?_, ?_, rfl, rfl, rfl, ?_⟩
  · intro v; cases azg <;> simp [GetOkString]
    exact ⟨fun h => ⟨h.2, h.2 ▸ h.1⟩, fun h => ⟨h.1 ▸ h.2, h.1⟩⟩
  · intro v; cases cls <;> simp [GetOkString]
    exact ⟨fun h => ⟨h.2, h.2 ▸ h.1⟩, fun h => ⟨h.1 ▸ h.2, h.1⟩⟩
  · intro v; simp [GetOkString]
    exact ⟨fun h => ⟨h.2, h.2 ▸ h.1⟩, fun h => ⟨h.1 ▸ h.2, h.1⟩⟩
  · intro v; cases ev <;> simp [GetOkString]
    exact ⟨fun h => ⟨h.2, h.2 ▸ h.1⟩, fun h => ⟨h.1 ▸ h.2, h.1⟩⟩
  · intro v; cases lm <;> simp [GetOkString]
    exact ⟨fun h => ⟨h.2, h.2 ▸ h.1⟩, fun h => ⟨h.1 ▸ h.2, h.1⟩⟩
  · intro v; cases vpc <;> simp [GetOkBool]
    exact ⟨fun h => ⟨h.2, h.2 ▸ h.1⟩, fun h => ⟨h.1 ▸ h.2, h.1⟩⟩
  · intro st pl; rw [buildInput_eq]

/-- The acceptance-test criteria put the engine, the engine version and the
license model into the request. -/
theorem C8_request_fields_witness :
    (buildInput preferredData).Engine = some "mysql" ∧
    (buildInput preferredData).EngineVersion = some "5.7.22" ∧
    (buildInput preferredData).Vpc = none :=
  ⟨((C8_request_fields preferredData).2.2.1 "mysql").mpr ⟨by decide, by decide⟩,
    ((C8_request_fields preferredData).2.2.2.1 "5.7.22").mpr ⟨by decide, by decide⟩,
    by decide⟩

/-- C4: when the retrieval succeeds and no record is retained (an empty
response, or only nil records and records failing the storage-type test), the
call fails with the "no ... options found matching criteria" error, whatever
the preference list is. -/
theorem C4_no_options
    (conn : DescribeOrderableDBInstanceOptionsInput → PagesResult) (d : ResourceData)
    (hremote : (conn (buildInput d)).err = none) (hzero : retained conn d = []) :
    dataSourceAwsRdsOrderableDbInstanceRead conn d = (d, .err .noOptions) ∧
      ReadError.noOptions.message =
        "no RDS Orderable DB Instance options found matching criteria; try different search" := by
  rw [read_eq conn d hremote]
  simp [hzero, ReadError.message]

/-- A nil record and a gp2 record under the filter "standard" leave nothing. -/
theorem C4_no_options_witness :
    dataSourceAwsRdsOrderableDbInstanceRead nilAndGp2 standardPreferredData
      = (standardPreferredData, .err .noOptions) :=
  (C4_no_options nilAndGp2 standardPreferredData (by decide) (by decide)).1

/-- C2: when the retrieval succeeds, two or more records are retained and no
entry of the preference list (possibly empty) equals the class of a retained
record, the call fails with the "multiple ... match the criteria" error, which
lists the class of every retained record in arrival order. -/
theorem C2_ambiguous
    (conn : DescribeOrderableDBInstanceOptionsInput → PagesResult) (d : ResourceData)
    (hremote : (conn (buildInput d)).err = none)
    (hlen : 2 ≤ (retained conn d).length)
    (hno : ∀ p, some p ∈ d.config.preferred_db_instance_classes →
      ∀ o ∈ retained conn d, instanceClassOf o ≠ p) :
    dataSourceAwsRdsOrderableDbInstanceRead conn d
        = (d, .err (.multiple ((retained conn d).map instanceClassOf))) ∧
      (ReadError.multiple ((retained conn d).map instanceClassOf)).message
        = "multiple RDS DB Instance Classes ([" ++
            " ".intercalate ((retained conn d).map instanceClassOf) ++
            "]) match the criteria; try a different search" := by
  constructor
  · rw [read_eq conn d hremote]
    have hl : ¬ (retained conn d).length = 0 := by omega
    have hs : selectClass d ((retained conn d).map instanceClassOf)
        = .error (.multiple ((retained conn d).map instanceClassOf)) := by
      apply selectClass_multiple
      · simpa using hlen
      · intro p hp _ hmem
        obtain ⟨o, ho, e⟩ := List.mem_map.mp hmem
        exact hno p hp o ho e
    simp only [hl, if_false, hs]
  · simp only [ReadError.message, fmtStrings, String.append_assoc]
    rw [← String.append_assoc "multiple RDS DB Instance Classes (" "["]
    rfl

/-- Two candidates and a preference list naming neither are ambiguous. -/
theorem C2_ambiguous_witness :
    dataSourceAwsRdsOrderableDbInstanceRead twoSmall emptyPreferredData
      = (emptyPreferredData, .err (.multiple ["db.t2.small", "db.t3.small"])) :=
  (C2_ambiguous twoSmall emptyPreferredData (by decide) (by decide) (by
    intro p hp
    have hp2 : p = "" := by
      simpa [emptyPreferredData, freshData, blankConfig, eq_comm] using hp
    subst hp2
    decide)).1


/-! ## The selected record -/

theorem mem_classes_iff (l : List OrderableDBInstanceOption) (c : String) :
    c ∈ l.map instanceClassOf ↔ ∃ o ∈ l, instanceClassOf o = c := by
  simp [List.mem_map]

/-- When the retrieval succeeds and a class is selected, the call succeeds and
emits the last retained record of that class. -/
theorem read_of_selected (conn : DescribeOrderableDBInstanceOptionsInput → PagesResult)
    (d : ResourceData) (c : String) (hremote : (conn (buildInput d)).err = none)
    (hs : selectClass d ((retained conn d).map instanceClassOf) = .ok c) :
    ∃ pre o post, retained conn d = pre ++ o :: post ∧ instanceClassOf o = c ∧
      (∀ x ∈ post, instanceClassOf x ≠ c) ∧
      mapGet (insertAll [] (retained conn d)) c = some o ∧
      dataSourceAwsRdsOrderableDbInstanceRead conn d
        = (emitOption ((d.SetId c).Set "db_instance_class" (.string c)) o, .ok) := by
  have hc := (selectClass_ok d _ c hs).2
  obtain ⟨pre, o, post, e, hk, hp⟩ :=
    exists_last_of_class (retained conn d) c ((mem_classes_iff _ _).mp hc)
  have hg : mapGet (insertAll [] (retained conn d)) c = some o := by
    rw [e]; exact mapGet_insertAll_last pre post o [] c hk hp
  refine ⟨pre, o, post, e, hk, hp, hg, ?_⟩
  rw [read_eq conn d hremote]
  have hl : ¬ (retained conn d).length = 0 := by rw [e]; simp
  simp only [hl, if_false, hs, hg]

theorem attr_emitOption_class (d : ResourceData) (o : OrderableDBInstanceOption) :
    (emitOption d o).attr "db_instance_class" = d.attr "db_instance_class" := by
  simp [emitOption, attr_Set_of_ne]

theorem attr_emitOption_storage_type (d : ResourceData) (o : OrderableDBInstanceOption) :
    (emitOption d o).attr "storage_type" = some (.stringPtr o.StorageType) := by
  simp [emitOption, attr_Set_of_ne, attr_Set_self]

/-- C1, as stated, fails: the only entry of the preference list, the empty
string, equals the class of a retained record, yet the call fails as
ambiguous. -/
theorem C1_empty_entry_not_selected :
    some "" ∈ emptyPreferredData.config.preferred_db_instance_classes ∧
    (retained emptyClassFirst emptyPreferredData).map instanceClassOf = ["", "db.t3.small"] ∧
    (dataSourceAwsRdsOrderableDbInstanceRead emptyClassFirst emptyPreferredData).2
      = .err (.multiple ["", "db.t3.small"]) := by
  decide

/-- C1, amended: when the retrieval succeeds and some non-empty entry of the
preference list equals the class of a retained record, the call succeeds, and
the identifier and the `db_instance_class` output are the first non-empty
entry, in list order, that is the class of a retained record. -/
theorem C1_first_listed_present_class
    (conn : DescribeOrderableDBInstanceOptionsInput → PagesResult) (d : ResourceData)
    (hremote : (conn (buildInput d)).err = none)
    (h : ∃ c, some c ∈ d.config.preferred_db_instance_classes ∧ c ≠ "" ∧
      ∃ o ∈ retained conn d, instanceClassOf o = c) :
    (dataSourceAwsRdsOrderableDbInstanceRead conn d).2 = .ok ∧
    ∃ pre c post, d.config.preferred_db_instance_classes = pre ++ some c :: post ∧
      c ≠ "" ∧ (∃ o ∈ retained conn d, instanceClassOf o = c) ∧
      (∀ p, some p ∈ pre → p ≠ "" → ∀ o ∈ retained conn d, instanceClassOf o ≠ p) ∧
      (dataSourceAwsRdsOrderableDbInstanceRead conn d).1.id = c ∧
      (dataSourceAwsRdsOrderableDbInstanceRead conn d).1.attr "db_instance_class"
        = some (.string c) := by
  have h2 : ∃ c, some c ∈ d.config.preferred_db_instance_classes ∧ c ≠ "" ∧
      c ∈ (retained conn d).map instanceClassOf := by
    obtain ⟨c, h1, h2, h3⟩ := h
    exact ⟨c, h1, h2, (mem_classes_iff _ _).mpr h3⟩
  obtain ⟨pre, c, post, e, hc, hm, hp⟩ := exists_first_present _ _ h2
  have hs := selectClass_first d _ pre post c e hc hm hp
  obtain ⟨_, o, _, _, _, _, _, hr⟩ := read_of_selected conn d c hremote hs
  rw [hr]
  refine ⟨rfl, pre, c, post, e, hc, (mem_classes_iff _ _).mp hm, ?_, ?_, ?_⟩
  · intro p hp1 hp2 o2 ho2 e2
    exact hp p hp1 hp2 ((mem_classes_iff _ _).mpr ⟨o2, ho2, e2⟩)
  · simp only [id_emitOption, id_Set]; rfl
  · simp only [attr_emitOption_class, attr_Set_self]

/-- The acceptance test of the preference list: db.t2.small is selected. -/
theorem C1_first_listed_present_class_witness :
    (dataSourceAwsRdsOrderableDbInstanceRead twoSmall preferredData).2 = .ok ∧
      (dataSourceAwsRdsOrderableDbInstanceRead twoSmall preferredData).1.id = "db.t2.small" :=
  ⟨(C1_first_listed_present_class twoSmall preferredData (by decide)
      ⟨"db.t3.small", by decide, by decide, mkOption "db.t3.small" "standard",
        by decide, by decide⟩).1, by decide⟩


/-- C3, as stated, fails: a single retained record whose instance class is
absent makes the call fail. -/
theorem C3_classless_record_fails :
    (retained classlessOnly (freshData blankConfig)).length = 1 ∧
    (dataSourceAwsRdsOrderableDbInstanceRead classlessOnly (freshData blankConfig)).2
      = .err .noClassMatch := by
  decide

/-- C3, amended: when the retrieval succeeds and exactly one record is
retained, and its instance class is not the empty string, the call succeeds
whatever the preference list is, the identifier is that class, and every
output holds the corresponding field of that record. -/
theorem C3_single_record
    (conn : DescribeOrderableDBInstanceOptionsInput → PagesResult) (d : ResourceData)
    (o : OrderableDBInstanceOption)
    (hremote : (conn (buildInput d)).err = none)
    (hone : retained conn d = [o]) (hcls : instanceClassOf o ≠ "") :
    (dataSourceAwsRdsOrderableDbInstanceRead conn d).2 = .ok ∧
    (dataSourceAwsRdsOrderableDbInstanceRead conn d).1.id = instanceClassOf o ∧
    (dataSourceAwsRdsOrderableDbInstanceRead conn d).1.attr "db_instance_class"
      = some (.string (instanceClassOf o)) ∧
    (dataSourceAwsRdsOrderableDbInstanceRead conn d).1.attr "availability_zone_group"
      = some (.stringPtr o.AvailabilityZoneGroup) ∧
    (dataSourceAwsRdsOrderableDbInstanceRead conn d).1.attr "availability_zones"
      = some (.stringPtrList (o.AvailabilityZones.map (fun az => az.Name))) ∧
    (dataSourceAwsRdsOrderableDbInstanceRead conn d).1.attr "engine"
      = some (.stringPtr o.Engine) ∧
    (dataSourceAwsRdsOrderableDbInstanceRead conn d).1.attr "engine_version"
      = some (.stringPtr o.EngineVersion) ∧
    (dataSourceAwsRdsOrderableDbInstanceRead conn d).1.attr "license_model"
      = some (.stringPtr o.LicenseModel) ∧
    (dataSourceAwsRdsOrderableDbInstanceRead conn d).1.attr "max_iops_per_db_instance"
      = some (.int64Ptr o.MaxIopsPerDbInstance) ∧
    (dataSourceAwsRdsOrderableDbInstanceRead conn d).1.attr "max_iops_per_gib"
      = some (.float64Ptr o.MaxIopsPerGib) ∧
    (dataSourceAwsRdsOrderableDbInstanceRead conn d).1.attr "max_storage_size"
      = some (.int64Ptr o.MaxStorageSize) ∧
    (dataSourceAwsRdsOrderableDbInstanceRead conn d).1.attr "min_iops_per_db_instance"
      = some (.int64Ptr o.MinIopsPerDbInstance) ∧
    (dataSourceAwsRdsOrderableDbInstanceRead conn d).1.attr "min_iops_per_gib"
      = some (.float64Ptr o.MinIopsPerGib) ∧
    (dataSourceAwsRdsOrderableDbInstanceRead conn d).1.attr "min_storage_size"
      = some (.int64Ptr o.MinStorageSize) ∧
    (dataSourceAwsRdsOrderableDbInstanceRead conn d).1.attr "multi_az_capable"
      = some (.boolPtr o.MultiAZCapable) ∧
    (dataSourceAwsRdsOrderableDbInstanceRead conn d).1.attr "outpost_capable"
      = some (.boolPtr o.OutpostCapable) ∧
    (dataSourceAwsRdsOrderableDbInstanceRead conn d).1.attr "read_replica_capable"
      = some (.boolPtr o.ReadReplicaCapable) ∧
    (dataSourceAwsRdsOrderableDbInstanceRead conn d).1.attr "storage_type"
      = some (.stringPtr o.StorageType) ∧
    (dataSourceAwsRdsOrderableDbInstanceRead conn d).1.attr "supported_engine_modes"
      = some (.stringPtrList o.SupportedEngineModes) ∧
    (dataSourceAwsRdsOrderableDbInstanceRead conn d).1.attr "supports_enhanced_monitoring"
      = some (.boolPtr o.SupportsEnhancedMonitoring) ∧
    (dataSourceAwsRdsOrderableDbInstanceRead conn d).1.attr "supports_global_databases"
      = some (.boolPtr o.SupportsGlobalDatabases) ∧
    (dataSourceAwsRdsOrderableDbInstanceRead conn d).1.attr "supports_iam_database_authentication"
      = some (.boolPtr o.SupportsIAMDatabaseAuthentication) ∧
    (dataSourceAwsRdsOrderableDbInstanceRead conn d).1.attr "supports_iops"
      = some (.boolPtr o.SupportsIops) ∧
    (dataSourceAwsRdsOrderableDbInstanceRead conn d).1.attr "supports_kerberos_authentication"
      = some (.boolPtr o.SupportsKerberosAuthentication) ∧
    (dataSourceAwsRdsOrderableDbInstanceRead conn d).1.attr "supports_performance_insights"
      = some (.boolPtr o.SupportsPerformanceInsights) ∧
    (dataSourceAwsRdsOrderableDbInstanceRead conn d).1.attr "supports_storage_autoscaling"
      = some (.boolPtr o.SupportsStorageAutoscaling) ∧
    (dataSourceAwsRdsOrderableDbInstanceRead conn d).1.attr "supports_storage_encryption"
      = some (.boolPtr o.SupportsStorageEncryption) ∧
    (dataSourceAwsRdsOrderableDbInstanceRead conn d).1.attr "vpc"
      = some (.boolPtr o.Vpc) := by
  have hs : selectClass d ((retained conn d).map instanceClassOf) = .ok (instanceClassOf o) := by
    rw [hone]; exact selectClass_single d _ hcls
  obtain ⟨pre, o2, post, e, _, _, _, hr⟩ := read_of_selected conn d _ hremote hs
  have ho : o2 = o := by
    rw [hone] at e
    rcases pre with _ | ⟨a, t⟩
    · simp at e; exact e.1.symm
    · simp at e
  subst ho
  rw [hr]
  refine ⟨rfl, rfl, ?_⟩
  simp [emitOption, attr_Set_self, attr_Set_of_ne]

/-- A single candidate under the filter "standard" is selected. -/
theorem C3_single_record_witness :
    (dataSourceAwsRdsOrderableDbInstanceRead (onePage [mkOption "db.t2.small" "standard"])
        standardData).2 = .ok ∧
    (dataSourceAwsRdsOrderableDbInstanceRead (onePage [mkOption "db.t2.small" "standard"])
        standardData).1.id = "db.t2.small" :=
  ⟨(C3_single_record (onePage [mkOption "db.t2.small" "standard"]) standardData
      (mkOption "db.t2.small" "standard") (by decide) (by decide) (by decide)).1,
   (C3_single_record (onePage [mkOption "db.t2.small" "standard"]) standardData
      (mkOption "db.t2.small" "standard") (by decide) (by decide) (by decide)).2.1⟩


/-! ## The storage-type filter -/

theorem buildInput_withoutStorageType (d : ResourceData) :
    buildInput (withoutStorageType d) = buildInput d := by
  rw [buildInput_eq, buildInput_eq]; rfl

theorem allRecords_storageFiltered (s : String)
    (pages : List DescribeOrderableDBInstanceOptionsOutput) :
    allRecords (pages.map (fun p =>
      { p with OrderableDBInstanceOptions := p.OrderableDBInstanceOptions.filter (fun r =>
          match r with
          | none => false
          | some o => decide (StringValue o.StorageType = s)) }))
      = (allRecords pages).filter (fun r =>
          match r with
          | none => false
          | some o => decide (StringValue o.StorageType = s)) := by
  induction pages with
  | nil => rfl
  | cons p rest ih => simp [allRecords, ih]

theorem keeps_withoutStorageType (d : ResourceData) (o : OrderableDBInstanceOption) :
    keeps (withoutStorageType d) o = true := by
  simp [keeps, withoutStorageType, GetOkString]

theorem keeps_iff (d : ResourceData) (s : String) (o : OrderableDBInstanceOption)
    (hs : d.config.storage_type = some s) (hne : s ≠ "") :
    keeps d o = true ↔ StringValue o.StorageType = s := by
  simp [keeps, hs, GetOkString, hne]

theorem retainedOf_filter (d : ResourceData) (s : String)
    (hs : d.config.storage_type = some s) (hne : s ≠ "")
    (l : List (Option OrderableDBInstanceOption)) :
    retainedOf (withoutStorageType d) (l.filter (fun r =>
        match r with
        | none => false
        | some o => decide (StringValue o.StorageType = s)))
      = retainedOf d l := by
  induction l with
  | nil => rfl
  | cons r t ih =>
    cases r with
    | none => simpa [retainedOf] using ih
    | some o =>
      by_cases hk : StringValue o.StorageType = s
      · have h1 : keeps d o = true := (keeps_iff d s o hs hne).mpr hk
        simp [retainedOf, hk, h1, keeps_withoutStorageType, ih]
      · have h1 : ¬ keeps d o = true := fun h => hk ((keeps_iff d s o hs hne).mp h)
        simp [retainedOf, hk, h1, ih]

theorem retained_storageFiltered
    (conn : DescribeOrderableDBInstanceOptionsInput → PagesResult) (d : ResourceData)
    (s : String) (hs : d.config.storage_type = some s) (hne : s ≠ "") :
    retained (storageFiltered s conn) (withoutStorageType d) = retained conn d := by
  simp only [retained, buildInput_withoutStorageType, storageFiltered,
    allRecords_storageFiltered]
  exact retainedOf_filter d s hs hne _

theorem mem_retainedOf (d : ResourceData) (l : List (Option OrderableDBInstanceOption))
    (o : OrderableDBInstanceOption) (h : o ∈ retainedOf d l) :
    some o ∈ l ∧ keeps d o = true := by
  induction l with
  | nil => cases h
  | cons r t ih =>
    cases r with
    | none =>
      have := ih (by simpa [retainedOf] using h)
      exact ⟨List.mem_cons_of_mem _ this.1, this.2⟩
    | some a =>
      by_cases hk : keeps d a = true
      · simp only [retainedOf, hk, if_true] at h
        rcases List.mem_cons.mp h with rfl | h
        · exact ⟨List.mem_cons_self _ _, hk⟩
        · exact ⟨List.mem_cons_of_mem _ (ih h).1, (ih h).2⟩
      · simp only [retainedOf, hk] at h
        exact ⟨List.mem_cons_of_mem _ (ih (by simpa using h)).1, (ih (by simpa using h)).2⟩

theorem attrs_emitOption_congr (d e : ResourceData) (o : OrderableDBInstanceOption)
    (h : e.attrs = d.attrs) : (emitOption e o).attrs = (emitOption d o).attrs := by
  simp [emitOption, ResourceData.Set, h]

/-- Two calls that agree on the preference list, the store, the identifier, the
retrieval error and the retained records end alike. -/
theorem read_congr (conn conn2 : DescribeOrderableDBInstanceOptionsInput → PagesResult)
    (d d2 : ResourceData)
    (hp : d2.config.preferred_db_instance_classes = d.config.preferred_db_instance_classes)
    (ha : d2.attrs = d.attrs) (hi : d2.id = d.id)
    (he : (conn2 (buildInput d2)).err = (conn (buildInput d)).err)
    (hr : retained conn2 d2 = retained conn d) :
    (dataSourceAwsRdsOrderableDbInstanceRead conn2 d2).2
        = (dataSourceAwsRdsOrderableDbInstanceRead conn d).2 ∧
    (dataSourceAwsRdsOrderableDbInstanceRead conn2 d2).1.id
        = (dataSourceAwsRdsOrderableDbInstanceRead conn d).1.id ∧
    (dataSourceAwsRdsOrderableDbInstanceRead conn2 d2).1.attrs
        = (dataSourceAwsRdsOrderableDbInstanceRead conn d).1.attrs := by
  cases herr : (conn (buildInput d)).err with
  | some g =>
    rw [read_remote_err conn d g herr, read_remote_err conn2 d2 g (he.trans herr)]
    exact ⟨rfl, hi, ha⟩
  | none =>
    rw [read_eq conn d herr, read_eq conn2 d2 (he.trans herr), hr]
    have hsel : selectClass d2 ((retained conn d).map instanceClassOf)
        = selectClass d ((retained conn d).map instanceClassOf) := by
      simp [selectClass, hp]
    rw [hsel]
    by_cases hl : (retained conn d).length = 0
    · simp only [hl, if_true]; exact ⟨trivial, hi, ha⟩
    · simp only [hl, if_false]
      cases hsc : selectClass d ((retained conn d).map instanceClassOf) with
      | error e2 => exact ⟨rfl, hi, ha⟩
      | ok c =>
        dsimp only
        cases hg : mapGet (insertAll [] (retained conn d)) c with
        | none =>
          refine ⟨rfl, rfl, ?_⟩
          simp only [ResourceData.Set, ResourceData.SetId, ha]
        | some o =>
          refine ⟨rfl, ?_, ?_⟩
          · simp only [id_emitOption, id_Set]; rfl
          · apply attrs_emitOption_congr
            simp only [ResourceData.Set, ResourceData.SetId, ha]

/-- C5, as stated, fails: with the storage type supplied as the empty string a
gp2 record is retained and selected, while no record has the empty string as
its storage type. -/
theorem C5_empty_filter_not_applied :
    emptyStorageData.config.storage_type = some "" ∧
    (dataSourceAwsRdsOrderableDbInstanceRead gp2Only emptyStorageData).2 = .ok ∧
    (dataSourceAwsRdsOrderableDbInstanceRead (storageFiltered "" gp2Only)
      (withoutStorageType emptyStorageData)).2 = .err .noOptions := by
  decide

/-- C5, amended: for every supplied non-empty storage type `s`, the call ends
as the call without a storage-type criterion does on the records whose storage
type is exactly `s`: same error or success, same identifier, same outputs. -/
theorem C5_storage_filter
    (conn : DescribeOrderableDBInstanceOptionsInput → PagesResult) (d : ResourceData)
    (s : String) (hs : d.config.storage_type = some s) (hne : s ≠ "") :
    (dataSourceAwsRdsOrderableDbInstanceRead conn d).2
      = (dataSourceAwsRdsOrderableDbInstanceRead (storageFiltered s conn)
          (withoutStorageType d)).2 ∧
    (dataSourceAwsRdsOrderableDbInstanceRead conn d).1.id
      = (dataSourceAwsRdsOrderableDbInstanceRead (storageFiltered s conn)
          (withoutStorageType d)).1.id ∧
    (dataSourceAwsRdsOrderableDbInstanceRead conn d).1.attrs
      = (dataSourceAwsRdsOrderableDbInstanceRead (storageFiltered s conn)
          (withoutStorageType d)).1.attrs := by
  have h := read_congr conn (storageFiltered s conn) d (withoutStorageType d) rfl rfl rfl
    (by rw [buildInput_withoutStorageType]; rfl) (retained_storageFiltered conn d s hs hne)
  exact ⟨h.1.symm, h.2.1.symm, h.2.2.symm⟩

/-- Under the filter "standard" a gp2 record is no candidate: the call ends
as it does on no record at all. -/
theorem C5_storage_filter_witness :
    (dataSourceAwsRdsOrderableDbInstanceRead gp2Only standardData).2 = .err .noOptions :=
  (C5_storage_filter gp2Only standardData "standard" (by decide) (by decide)).1.trans
    (by decide)


/-! ## Records of the same class, and the look-up -/

theorem read_ok_iff_selected (conn : DescribeOrderableDBInstanceOptionsInput → PagesResult)
    (d : ResourceData) (hok : (dataSourceAwsRdsOrderableDbInstanceRead conn d).2 = .ok) :
    (conn (buildInput d)).err = none ∧
      ∃ c, selectClass d ((retained conn d).map instanceClassOf) = .ok c := by
  cases herr : (conn (buildInput d)).err with
  | some g => rw [read_remote_err conn d g herr] at hok; cases hok
  | none =>
    refine ⟨rfl, ?_⟩
    rw [read_eq conn d herr] at hok
    by_cases hl : (retained conn d).length = 0
    · simp [hl] at hok
    · simp only [hl, if_false] at hok
      cases hs : selectClass d ((retained conn d).map instanceClassOf) with
      | error e2 => simp [hs] at hok
      | ok c => exact ⟨c, rfl⟩

/-- C9, as stated, fails: with the storage type supplied as the empty string
the emitted storage type is that of the record, not the supplied one. -/
theorem C9_empty_filter_storage_type :
    emptyStorageData.config.storage_type = some "" ∧
    (dataSourceAwsRdsOrderableDbInstanceRead io1Only emptyStorageData).2 = .ok ∧
    (dataSourceAwsRdsOrderableDbInstanceRead io1Only emptyStorageData).1.attr "storage_type"
      = some (.stringPtr (some "io1")) := by
  decide

/-- C9, amended: when the call succeeds, the record whose fields are emitted is
the last retained record, in arrival order, of the selected class, and when a
non-empty storage type was supplied the emitted storage type is the supplied
one.  Records of one and the same class each count for the ambiguity check:
two or more of them, with no preference list, make the call fail as
ambiguous, the error listing the class once per record. -/
theorem C9_last_of_class_emitted
    (conn : DescribeOrderableDBInstanceOptionsInput → PagesResult) (d : ResourceData) :
    ((dataSourceAwsRdsOrderableDbInstanceRead conn d).2 = .ok →
      ∃ pre o post, retained conn d = pre ++ o :: post ∧
        instanceClassOf o = (dataSourceAwsRdsOrderableDbInstanceRead conn d).1.id ∧
        (∀ x ∈ post,
          instanceClassOf x ≠ (dataSourceAwsRdsOrderableDbInstanceRead conn d).1.id) ∧
        (dataSourceAwsRdsOrderableDbInstanceRead conn d).1
          = emitOption ((d.SetId (instanceClassOf o)).Set "db_instance_class"
              (.string (instanceClassOf o))) o ∧
        (∀ s, d.config.storage_type = some s → s ≠ "" →
          (dataSourceAwsRdsOrderableDbInstanceRead conn d).1.attr "storage_type"
            = some (.stringPtr (some s)))) ∧
    (∀ c, (conn (buildInput d)).err = none →
      d.config.preferred_db_instance_classes = [] →
      2 ≤ (retained conn d).length →
      (∀ o ∈ retained conn d, instanceClassOf o = c) →
      dataSourceAwsRdsOrderableDbInstanceRead conn d
        = (d, .err (.multiple (List.replicate (retained conn d).length c)))) := by
  constructor
  · intro hok
    obtain ⟨hremote, c, hs⟩ := read_ok_iff_selected conn d hok
    obtain ⟨pre, o, post, e, hk, hp, _, hr⟩ := read_of_selected conn d c hremote hs
    subst hk
    have hid : (dataSourceAwsRdsOrderableDbInstanceRead conn d).1.id = instanceClassOf o := by
      rw [hr]; simp only [id_emitOption, id_Set]; rfl
    refine ⟨pre, o, post, e, hid.symm, ?_, by rw [hr], ?_⟩
    · rw [hid]; exact hp
    · intro s hst hne
      have hmem : o ∈ retained conn d := by rw [e]; simp
      have hkeep := (mem_retainedOf d _ o hmem).2
      have hsv : StringValue o.StorageType = s := (keeps_iff d s o hst hne).mp hkeep
      have hso : o.StorageType = some s := by
        cases hot : o.StorageType with
        | none => rw [hot] at hsv; exact absurd hsv.symm hne
        | some t => rw [hot] at hsv; exact congrArg some hsv
      rw [hr, attr_emitOption_storage_type, hso]
  · intro c hremote hpref hlen hall
    have hm : (retained conn d).map instanceClassOf
        = List.replicate (retained conn d).length c := by
      rw [List.eq_replicate_iff]
      refine ⟨by simp, ?_⟩
      intro b hb
      obtain ⟨o, ho, e⟩ := List.mem_map.mp hb
      rw [← e]; exact hall o ho
    rw [read_eq conn d hremote]
    have hl : ¬ (retained conn d).length = 0 := by omega
    have hs : selectClass d ((retained conn d).map instanceClassOf)
        = .error (.multiple ((retained conn d).map instanceClassOf)) := by
      apply selectClass_multiple
      · simpa using hlen
      · intro p hp; rw [hpref] at hp; cases hp
    simp only [hl, if_false, hs]
    rw [hm]

/-- In `duplicateClass` two records have the class db.t2.small; with that class
preferred the call succeeds and emits the supplied storage type.  In
`sameClassTwice`, with no preference list, both records count and the call is
ambiguous. -/
theorem C9_last_of_class_emitted_witness :
    (dataSourceAwsRdsOrderableDbInstanceRead duplicateClass standardPreferredData).2 = .ok ∧
    (dataSourceAwsRdsOrderableDbInstanceRead duplicateClass standardPreferredData).1.attr
      "storage_type" = some (.stringPtr (some "standard")) ∧
    dataSourceAwsRdsOrderableDbInstanceRead sameClassTwice standardData
      = (standardData, .err (.multiple ["db.t2.small", "db.t2.small"])) :=
  ⟨by decide,
    match (C9_last_of_class_emitted duplicateClass standardPreferredData).1 (by decide) with
    | ⟨_, _, _, _, _, _, _, h⟩ => h "standard" (by decide) (by decide),
    (C9_last_of_class_emitted sameClassTwice standardData).2 "db.t2.small"
      (by decide) (by decide) (by decide) (by decide)⟩

/-- C10: the look-up of the selected class never fails.  A selected class is
non-empty and is a key of the class-keyed map, so the call never panics; and
the final "no RDS DB Instance Classes match" error is returned exactly when
the retrieval succeeds and a single record is retained whose instance class is
the empty string. -/
theorem C10_lookup_never_fails
    (conn : DescribeOrderableDBInstanceOptionsInput → PagesResult) (d : ResourceData) :
    (dataSourceAwsRdsOrderableDbInstanceRead conn d).2 ≠ .panic ∧
    (∀ c, selectClass d (collected conn d).instanceClassResults = .ok c →
      c ≠ "" ∧ ∃ o, mapGet (collected conn d).instanceInfo c = some o) ∧
    ((dataSourceAwsRdsOrderableDbInstanceRead conn d).2 = .err .noClassMatch ↔
      (conn (buildInput d)).err = none ∧
        ∃ o, retained conn d = [o] ∧ instanceClassOf o = "") := by
  refine ⟨?_, ?_, ?_⟩
  · cases herr : (conn (buildInput d)).err with
    | some g => rw [read_remote_err conn d g herr]; simp
    | none =>
      by_cases hl : (retained conn d).length = 0
      · rw [read_eq conn d herr]; simp [hl]
      · cases hs : selectClass d ((retained conn d).map instanceClassOf) with
        | error e2 => rw [read_eq conn d herr]; simp [hl, hs]
        | ok c =>
          obtain ⟨_, _, _, _, _, _, _, hr⟩ := read_of_selected conn d c herr hs
          rw [hr]; simp
  · intro c hs
    rw [collected_eq] at hs ⊢
    simp only at hs ⊢
    have h := selectClass_ok d _ c hs
    obtain ⟨pre, o, post, e, hk, hp⟩ :=
      exists_last_of_class (retained conn d) c ((mem_classes_iff _ _).mp h.2)
    refine ⟨h.1, o, ?_⟩
    rw [e]; exact mapGet_insertAll_last pre post o [] c hk hp
  · cases herr : (conn (buildInput d)).err with
    | some g => rw [read_remote_err conn d g herr]; simp
    | none =>
      by_cases hl : (retained conn d).length = 0
      · rw [read_eq conn d herr]
        have hnil : retained conn d = [] := List.length_eq_zero.mp hl
        simp [hnil]
      · have hne : (retained conn d).map instanceClassOf ≠ [] := by
          intro h; apply hl; simpa using congrArg List.length h
        have hiff := selectClass_noClassMatch d _ hne
        have hchar : (retained conn d).map instanceClassOf = [""] ↔
            ∃ o, retained conn d = [o] ∧ instanceClassOf o = "" := by
          constructor
          · intro h
            rcases hrt : retained conn d with _ | ⟨a, _ | ⟨b, u⟩⟩
            · rw [hrt] at h; simp at h
            · rw [hrt] at h; exact ⟨a, rfl, by simpa using h⟩
            · rw [hrt] at h; simp at h
          · rintro ⟨o, ho, hc⟩
            rw [ho]; simp [hc]
        cases hs : selectClass d ((retained conn d).map instanceClassOf) with
        | error e2 =>
          rw [read_eq conn d herr]
          simp only [hl, if_false, hs, true_and]
          rw [← hchar, ← hiff, hs]
          constructor
          · intro h; cases h; rfl
          · intro h; cases h; rfl
        | ok c =>
          obtain ⟨_, _, _, _, _, _, _, hr⟩ := read_of_selected conn d c herr hs
          rw [hr]
          simp only [true_and]
          constructor
          · intro h; cases h
          · intro h
            have := hiff.mpr (hchar.mpr h)
            rw [hs] at this; cases this

/-- A single record without an instance class ends in the final error. -/
theorem C10_lookup_never_fails_witness :
    (dataSourceAwsRdsOrderableDbInstanceRead classlessOnly standardData).2
      = .err .noClassMatch :=
  (C10_lookup_never_fails classlessOnly standardData).2.2.mpr
    ⟨by decide, { blankOption with Engine := some "mysql", StorageType := some "standard" },
      by decide, by decide⟩

end TerraformAws
